import Mathlib

/-!
Verification development for the Mexican-Sign-Language web front-end.

The file shallowly embeds the two source modules:
 - `src/lib/state.ts` (the `AppState` pub/sub store), and
 - `src/scripts/video-processing.js` (`extractDetectionData`,
   `handleServerError`, `getSelectedLetter` and the capture click flow).

JavaScript values coming from `response.json()` are modelled by the
inductive type `Json` below (JSON has no `undefined`, so `undefined`
arising from property access is modelled by `Option Json` with `none`).
JavaScript numbers are modelled as exact rationals; `NaN` is modelled as
`none : Option Rat` where it can arise.  A thrown `TypeError` is
modelled by `Except.error`.
-/

/-- A JSON value, as produced by `JSON.parse` / `response.json()`:
null, booleans, numbers (modelled as exact rationals), strings, arrays
and objects (key/value lists; `JSON.parse` output has unique keys). -/
inductive Json where
  | null
  | bool (b : Bool)
  | num (q : ℚ)
  | str (s : String)
  | arr (elems : List Json)
  | obj (fields : List (String × Json))

/-- First-match lookup of a key in an object's field list (the parse of a
JSON text binds each key once, so first match is the only match). -/
def lookupField : List (String × Json) → String → Option Json
  | [], _ => none
  | (k, v) :: rest, key => if k = key then some v else lookupField rest key

/-- JavaScript property access `j.key` on a non-null, non-undefined value:
objects look the key up; arrays and strings expose `length`; other
primitives have none of the accessed properties.  Access on `null` throws
in JavaScript and is handled by `jsGet` / the callers, never here. -/
def getField : Json → String → Option Json
  | Json.obj fs, k => lookupField fs k
  | Json.arr xs, k => if k = "length" then some (Json.num xs.length) else none
  | Json.str s, k => if k = "length" then some (Json.num s.length) else none
  | _, _ => none

/-- Optional chaining `a?.key`: short-circuits to `undefined` on
`undefined` and `null`, otherwise plain property access. -/
def jsGetOpt : Option Json → String → Option Json
  | none, _ => none
  | some Json.null, _ => none
  | some j, k => getField j k

/-- JavaScript indexing `j[i]` for a natural index: array element, single
character of a string, or the numeric-named property of an object. -/
def jsIndex : Json → Nat → Option Json
  | Json.arr xs, i => xs.get? i
  | Json.str s, i => (s.data.get? i).map (fun c => Json.str (String.mk [c]))
  | Json.obj fs, i => lookupField fs (toString i)
  | _, _ => none

/-- Optional chained indexing `a?.[i]`. -/
def jsIndexOpt : Option Json → Nat → Option Json
  | none, _ => none
  | some Json.null, _ => none
  | some j, i => jsIndex j i

/-- Plain (non-optional) property access `j.key`: throws a `TypeError`
when the target is `null`, otherwise returns the property
(`none` models `undefined`). -/
def jsGet : Json → String → Except String (Option Json)
  | Json.null, k => Except.error ("TypeError: Cannot read properties of null (reading " ++ k ++ ")")
  | j, k => Except.ok (getField j k)

/-- Nullish coalescing `a ?? b`: keeps `a` unless it is `undefined` or
`null`. -/
def jsCoalesce (a b : Option Json) : Option Json :=
  match a with
  | none => b
  | some Json.null => b
  | some v => some v

/-- Nullish coalescing against a defined default, `a ?? b` with `b` a
literal: always yields a value. -/
def jsCoalesceD (a : Option Json) (b : Json) : Json :=
  match a with
  | none => b
  | some Json.null => b
  | some v => v

/-- JavaScript truthiness of a defined value: `null`, `false`, `0` and
`""` are falsy; arrays and objects are truthy.  (`NaN` cannot occur in a
`Json` value.) -/
def jsTruthyJ : Json → Bool
  | Json.null => false
  | Json.bool b => b
  | Json.num q => decide (q ≠ 0)
  | Json.str s => decide (s ≠ "")
  | Json.arr _ => true
  | Json.obj _ => true

/-- Truthiness of a possibly-`undefined` value. -/
def jsTruthy : Option Json → Bool
  | none => false
  | some j => jsTruthyJ j

/-- Value of a non-empty all-digit character list, `none` otherwise. -/
def decDigitsVal (cs : List Char) : Option Nat :=
  if cs.isEmpty then none
  else cs.foldl
    (fun acc c =>
      match acc with
      | none => none
      | some n => if c.isDigit then some (n * 10 + (c.toNat - 48)) else none)
    (some 0)

/-- Unsigned decimal parse used by the `Number` conversion: `digits`,
`digits.digits`, `digits.` or `.digits`.  Exponent and hexadecimal forms
are outside every code path of this repository and map to `none`
(i.e. `NaN`). -/
def parseUnsignedDec (cs : List Char) : Option ℚ :=
  let intPart := cs.takeWhile (fun c => c ≠ '.')
  match cs.dropWhile (fun c => c ≠ '.') with
  | [] => (decDigitsVal intPart).map (fun n => (n : ℚ))
  | _ :: frac =>
    if frac.isEmpty then (decDigitsVal intPart).map (fun n => (n : ℚ))
    else
      match decDigitsVal frac with
      | none => none
      | some f =>
        match (if intPart.isEmpty then some 0 else decDigitsVal intPart) with
        | none => none
        | some n => some ((n : ℚ) + (f : ℚ) / ((10 : ℚ) ^ frac.length))

/-- JavaScript `Number` conversion of a string: trimmed-empty is `0`, an
optionally signed decimal is its value, anything else is `NaN`
(modelled as `none`). -/
def jsStrToNum (s : String) : Option ℚ :=
  match s.trim.data with
  | [] => some 0
  | '+' :: rest => parseUnsignedDec rest
  | '-' :: rest => (parseUnsignedDec rest).map (fun q => -q)
  | cs => parseUnsignedDec cs

/-- Rendering of a number for string conversion.  Integral values render
exactly as JavaScript does; the rendering of non-integral rationals is
abstracted (no claim of this development depends on it). -/
def numToString (q : ℚ) : String :=
  if q.den = 1 then toString q.num else toString q.num ++ "/" ++ toString q.den

mutual

/-- JavaScript `String(v)` conversion restricted to `Json` values:
arrays join their elements with commas (null elements become empty),
objects render as `[object Object]`. -/
def jsDisplayString : Json → String
  | Json.null => "null"
  | Json.bool b => cond b "true" "false"
  | Json.num q => numToString q
  | Json.str s => s
  | Json.arr xs => jsDisplayElems xs
  | Json.obj _ => "[object Object]"

/-- Comma join of array elements for `String(array)`;
`null` elements render as the empty string. -/
def jsDisplayElems : List Json → String
  | [] => ""
  | [Json.null] => ""
  | [x] => jsDisplayString x
  | Json.null :: xs => "," ++ jsDisplayElems xs
  | x :: xs => jsDisplayString x ++ "," ++ jsDisplayElems xs

end

/-- JavaScript `Number(v)` conversion restricted to `Json` values:
`null` is `0`, booleans are `0`/`1`, strings parse as decimals, arrays
convert via their string join, objects are `NaN` (`none`). -/
def jsToNumber : Json → Option ℚ
  | Json.null => some 0
  | Json.bool b => some (cond b 1 0)
  | Json.num q => some q
  | Json.str s => jsStrToNum s
  | Json.arr xs => jsStrToNum (jsDisplayElems xs)
  | Json.obj _ => none

/-- Escape of one character for `JSON.stringify` string output (quote,
backslash and the common control characters; `\u` escapes for the other
control characters are outside every value this development evaluates). -/
def escapeChar (c : Char) : String :=
  if c = '\"' then "\\\""
  else if c = '\\' then "\\\\"
  else if c = '\n' then "\\n"
  else if c = '\t' then "\\t"
  else if c = '\r' then "\\r"
  else String.mk [c]

/-- Escape of a whole string for `JSON.stringify`. -/
def escapeString (s : String) : String :=
  String.join (s.data.map escapeChar)

/-- A `JSON.stringify` quoted string. -/
def jsonQuote (s : String) : String :=
  "\"" ++ escapeString s ++ "\""

mutual

/-- `JSON.stringify` of a `Json` value. -/
def jsonStringify : Json → String
  | Json.null => "null"
  | Json.bool b => cond b "true" "false"
  | Json.num q => numToString q
  | Json.str s => jsonQuote s
  | Json.arr xs => "[" ++ stringifyElems xs ++ "]"
  | Json.obj fs => "\x7b" ++ stringifyFields fs ++ "\x7d"

/-- Comma-joined `JSON.stringify` renderings of array elements. -/
def stringifyElems : List Json → String
  | [] => ""
  | [x] => jsonStringify x
  | x :: xs => jsonStringify x ++ "," ++ stringifyElems xs

/-- Comma-joined `JSON.stringify` renderings of object fields. -/
def stringifyFields : List (String × Json) → String
  | [] => ""
  | [(k, v)] => jsonQuote k ++ ":" ++ jsonStringify v
  | (k, v) :: fs => jsonQuote k ++ ":" ++ jsonStringify v ++ "," ++ stringifyFields fs

end

/-- Floor of a rational as an integer (`Int.fdiv` rounds toward negative
infinity, so this is the mathematical floor). -/
def ratFloor (q : ℚ) : ℤ :=
  Int.fdiv q.num q.den

/-- The percentage string `Math.round(confidenceNum * 100) + "%"`:
JavaScript `Math.round x` is `floor (x + 1/2)`; a `NaN` confidence
renders as `NaN%`. -/
def jsRoundPct : Option ℚ → String
  | none => "NaN%"
  | some q => toString (ratFloor (q * 100 + 1 / 2)) ++ "%"

/-- The record literal returned by `extractDetectionData` in
`video-processing.js` (the spec's `DetectionResult` view of it):
`detectedLetter` is passed through unchanged and so may be any JSON
value, `confidenceNum` is a JavaScript number (`none` models `NaN`). -/
structure ExtractedDetection where
  detectedLetter : Json
  confidenceNum : Option ℚ
  confidencePct : String
  handDetected : String

/-- The capitalisation `s.charAt(0).toUpperCase() + s.slice(1)` of a
string (`Char.toUpper` agrees with JavaScript on the ASCII letters the
code paths produce). -/
def jsCapitalize (s : String) : String :=
  match s.data with
  | [] => ""
  | c :: rest => String.mk (Char.toUpper c :: rest)

/-- The conditional
`handRaw ? handRaw.charAt(0).toUpperCase() + handRaw.slice(1) : '—'`:
a falsy `handRaw` yields the em dash, a truthy string is capitalised,
and a truthy non-string throws (`charAt` is not a function on it). -/
def jsCapitalizeHand (handRaw : Json) : Except String String :=
  if jsTruthyJ handRaw then
    match handRaw with
    | Json.str s => Except.ok (jsCapitalize s)
    | _ => Except.error "TypeError: handRaw.charAt is not a function"
  else Except.ok "—"

/-- The `handRaw` expression of `extractDetectionData`:
`record?.metadata?.handedness?.[0] ??
 (record?.metadata?.landmarks?.right?.length ? 'right' :
  record?.metadata?.landmarks?.left?.length ? 'left' : null)`. -/
def handRawOf (record : Json) : Json :=
  jsCoalesceD
    (jsIndexOpt (jsGetOpt (jsGetOpt (some record) "metadata") "handedness") 0)
    (if jsTruthy (jsGetOpt (jsGetOpt (jsGetOpt (jsGetOpt (some record) "metadata") "landmarks") "right") "length") then Json.str "right"
     else if jsTruthy (jsGetOpt (jsGetOpt (jsGetOpt (jsGetOpt (some record) "metadata") "landmarks") "left") "length") then Json.str "left"
     else Json.null)

/-- Body of `extractDetectionData` for a non-null record:
`detectedLetter = record.detected_as ?? record.predicted_as ?? '-'`,
`confidenceNum = Number(record.confidence ?? 0)`, the `handRaw`
resolution, the capitalised hand indicator (whose evaluation is the one
remaining throw site) and the rounded percentage string. -/
def extractBody (record : Json) : Except String ExtractedDetection :=
  match jsCapitalizeHand (handRawOf record) with
  | Except.error e => Except.error e
  | Except.ok handDetected =>
    Except.ok
      { detectedLetter := jsCoalesceD (jsCoalesce (getField record "detected_as") (getField record "predicted_as")) (Json.str "-"),
        confidenceNum := jsToNumber (jsCoalesceD (getField record "confidence") (Json.num 0)),
        confidencePct := jsRoundPct (jsToNumber (jsCoalesceD (getField record "confidence") (Json.num 0))),
        handDetected := handDetected }

/-- `extractDetectionData(record)` from `video-processing.js`: the very
first property access `record.detected_as` throws when the parsed
response is `null`; every other computation of the body is total except
the `charAt` call modelled in `jsCapitalizeHand`. -/
def extractDetectionData (record : Json) : Except String ExtractedDetection :=
  match record with
  | Json.null => Except.error "TypeError: Cannot read properties of null (reading detected_as)"
  | r => extractBody r

/-- The hand indicator of an extraction outcome, as an `Option` so
concrete instances can be settled by `decide`. -/
def extractHand (record : Json) : Option String :=
  (extractDetectionData record).toOption.map ExtractedDetection.handDetected

/-- An HTTP response as observed by the capture flow: the status code,
the raw body text, and `parsedBody = some j` exactly when the raw body
is valid JSON parsing to `j` (`response.json()` resolves with `j`), and
`none` when parsing fails.  The body is a one-shot stream:
`response.json()` consumes it whether or not parsing succeeds, and any
later `response.text()` rejects with a body-consumption `TypeError`, so
`rawBody` is never observable on the error path. -/
structure ServerResponse where
  status : Nat
  rawBody : String
  parsedBody : Option Json

/-- `response.ok`: the status is in the inclusive range 200 to 299
(`sendImageToServer` calls `handleServerError` exactly when this is
false). -/
def responseOk (r : ServerResponse) : Prop :=
  200 ≤ r.status ∧ r.status ≤ 299

/-- The exception with which the error-handling path of the upload
rejects: either the descriptive `Error` that `handleServerError`
constructs and throws, or the host `TypeError` with which
`response.text()` rejects when the body stream was already consumed by
`response.json()` (its exact message is host-defined, so it is modelled
symbolically rather than by a fabricated text). -/
inductive ThrownError where
  | descriptive (msg : String)
  | bodyConsumedTypeError

/-- `handleServerError(response)`: the exception with which the helper
rejects for a non-2xx response.  When the body is valid JSON and the
payload is not null, it throws the descriptive
`Error("HTTP <status>: " + (payload.detail ?? JSON.stringify(payload)))`.
When `response.json()` rejects (non-JSON body) or `payload.detail`
throws (null payload), the `catch` runs `await response.text()` on the
already-consumed body, which rejects with the body-consumption
`TypeError`; that `TypeError` propagates instead of the descriptive
error, and the raw response text never reaches any message. -/
def handleServerError (resp : ServerResponse) : ThrownError :=
  match resp.parsedBody with
  | none => ThrownError.bodyConsumedTypeError
  | some payload =>
    match jsGet payload "detail" with
    | Except.error _ => ThrownError.bodyConsumedTypeError
    | Except.ok d =>
      ThrownError.descriptive
        ("HTTP " ++ toString resp.status ++ ": " ++
          jsDisplayString (jsCoalesceD d (Json.str (jsonStringify payload))))

/-- `getSelectedLetter()`: `selected?.value || null` over the checked
radio, so a missing radio or an empty (falsy) value both yield `null`. -/
def getSelectedLetter (checkedRadio : Option String) : Option String :=
  match checkedRadio with
  | none => none
  | some v => if v = "" then none else some v

/-- Observable side effects of one click of the capture button, in
order: the blocking alert, the offscreen frame draw, the network POST,
the console error logs (`uploadFailureLogged` for the exception leaving
the non-2xx path, `jsonParseErrorLogged` for the host SyntaxError of an
unparsable 2xx body, whose message is host-defined, and `errorLogged`
for a message thrown by the extraction), the write of the global result
snapshot, and the result-display update. -/
inductive CaptureEffect where
  | alertShown (msg : String)
  | frameCaptured
  | requestSent (letter : String)
  | errorLogged (msg : String)
  | uploadFailureLogged (e : ThrownError)
  | jsonParseErrorLogged
  | resultStored (r : ExtractedDetection)
  | uiUpdated (r : ExtractedDetection)

/-- The capture click handler of `captureSnapshot`, as the list of side
effects it performs given the checked letter radio and the server's
response to the POST: without a selected letter it alerts and returns;
otherwise it captures a frame, sends it, and either surfaces the
extraction or logs the message of the exception thrown along the way
(the `handleServerError` outcome for a non-2xx status, the host
SyntaxError for an unparsable 2xx body, or an extraction `TypeError`). -/
def captureClick (checkedRadio : Option String) (resp : ServerResponse) : List CaptureEffect :=
  match getSelectedLetter checkedRadio with
  | none => [CaptureEffect.alertShown "Please select a letter before capturing."]
  | some letter =>
    CaptureEffect.frameCaptured :: CaptureEffect.requestSent letter ::
    (if 200 ≤ resp.status ∧ resp.status ≤ 299 then
      match resp.parsedBody with
      | none => [CaptureEffect.jsonParseErrorLogged]
      | some record =>
        match extractDetectionData record with
        | Except.error e => [CaptureEffect.errorLogged e]
        | Except.ok r => [CaptureEffect.resultStored r, CaptureEffect.uiUpdated r]
     else [CaptureEffect.uploadFailureLogged (handleServerError resp)])

/-- `Status` from `state.ts`: `"idle" | "loading" | "requestDone" | "error"`. -/
inductive Status where
  | idle
  | loading
  | requestDone
  | error
  deriving DecidableEq, Repr

/-- `DetectionResult` from `state.ts`. -/
structure DetectionResult where
  detectedLetter : String
  confidenceNum : ℚ
  handDetected : String
  deriving DecidableEq, Repr

/-- `AppStateShape` from `state.ts`; the optional `result` and the
nullable `errorMessage` are both `Option`s. -/
structure AppStateShape where
  status : Status
  result : Option DetectionResult
  errorMessage : Option String
  deriving DecidableEq, Repr

/-- The module-level initial state `{status: "idle", result: undefined, errorMessage: null}`. -/
def initialState : AppStateShape :=
  { status := Status.idle, result := none, errorMessage := none }

/-- The four mutating operations of the `AppState` store. -/
inductive StoreOp where
  | setStatus (next : Status)
  | setResult (result : Option DetectionResult)
  | setError (message : Option String)
  | reset
  deriving DecidableEq, Repr

/-- One store operation: the new state paired with whether a
`stateChange` event was dispatched.  `setStatus` returns early without
dispatching when the status is unchanged; `setError` sets the message
and forces the status to `error`; `reset` restores the initial triple;
all three of those always dispatch. -/
def applyOp (s : AppStateShape) : StoreOp → AppStateShape × Bool
  | StoreOp.setStatus next =>
    if next = s.status then (s, false)
    else ({ s with status := next }, true)
  | StoreOp.setResult r => ({ s with result := r }, true)
  | StoreOp.setError msg => ({ s with errorMessage := msg, status := Status.error }, true)
  | StoreOp.reset => (initialState, true)

/-- The state reached after a sequence of store operations. -/
def runOps (s : AppStateShape) (ops : List StoreOp) : AppStateShape :=
  ops.foldl (fun st op => (applyOp st op).1) s

/-- Whether an operation is a `setStatus` call. -/
def isSetStatus : StoreOp → Bool
  | StoreOp.setStatus _ => true
  | _ => false

/-- The spec's store invariant: a non-null `errorMessage` forces
`status = "error"`. -/
def errorInvariant (s : AppStateShape) : Prop :=
  s.errorMessage ≠ none → s.status = Status.error

/-- Safety of the resolved `metadata?.handedness?.[0]` value: the
`charAt` call cannot throw when it is undefined, null or a string. -/
def safeHand0 : Option Json → Bool
  | none => true
  | some Json.null => true
  | some (Json.str _) => true
  | some _ => false

/-- The resolved `metadata?.handedness?.[0]` value is undefined, null,
or one of the explicit side strings `"left"` / `"right"`. -/
def okHand0 : Option Json → Bool
  | none => true
  | some Json.null => true
  | some (Json.str s) => s == "left" || s == "right"
  | some _ => false

/-- The resolved `handedness?.[0]` chain of a record. -/
def hand0Of (record : Json) : Option Json :=
  jsIndexOpt (jsGetOpt (jsGetOpt (some record) "metadata") "handedness") 0

/-- The `confidence` field is absent, null, or a number in the unit
interval. -/
def confValueOkB : Option Json → Bool
  | none => true
  | some Json.null => true
  | some (Json.num q) => decide (0 ≤ q) && decide (q ≤ 1)
  | some _ => false

/-- The well-formedness claimed of a constructed detection record:
`confidenceNum` is a number (not `NaN`) in the closed unit interval and
`handDetected` is one of the three expected indicators. -/
def detectionWellFormedB (r : ExtractedDetection) : Bool :=
  (match r.confidenceNum with
   | some q => decide (0 ≤ q) && decide (q ≤ 1)
   | none => false) &&
  (r.handDetected == "Left" || r.handDetected == "Right" || r.handDetected == "—")

/-- The server response of claim C4. -/
def c4Record : Json :=
  Json.obj
    [("detected_as", Json.str "A"),
     ("confidence", Json.num (873 / 1000)),
     ("metadata", Json.obj [("handedness", Json.arr [Json.str "right"])])]

/-- A success response whose confidence lies outside the unit interval
(the code neither clamps nor validates it). -/
def c3Record : Json :=
  Json.obj [("confidence", Json.num 2)]

/-- A success response with a non-empty `landmarks.left` list, a
non-empty `landmarks.right` list, and no handedness entry. -/
def c5Record : Json :=
  Json.obj
    [("metadata", Json.obj
      [("landmarks", Json.obj
        [("left", Json.arr [Json.num 1]),
         ("right", Json.arr [Json.num 1])])])]

/-- A success response whose handedness entry is a number: truthy but
without a `charAt` method. -/
def c10Record : Json :=
  Json.obj [("metadata", Json.obj [("handedness", Json.arr [Json.num 5])])]

/-- The executable `ratFloor` is the mathematical floor on `ℚ` (the
denominator is positive, so flooring division and Euclidean division
agree). -/
theorem ratFloor_eq_floor (q : ℚ) : ratFloor q = ⌊q⌋ := by
  rw [Rat.floor_def]
  unfold ratFloor
  rw [Int.fdiv_eq_ediv _ (by positivity)]

/-- Any operation other than a `setStatus` preserves the error
invariant: `setResult` keeps both relevant fields, `setError`
establishes the `error` status, and `reset` clears the message. -/
theorem applyOp_preserves_errorInvariant (s : AppStateShape) (op : StoreOp)
    (hs : errorInvariant s) (hop : isSetStatus op = false) :
    errorInvariant (applyOp s op).1 := by
  cases op with
  | setStatus next => simp [isSetStatus] at hop
  | setResult r => intro h; exact hs h
  | setError msg => intro _; rfl
  | reset => intro h; exact absurd rfl h

/-- The error invariant holds of every state reached from an invariant
state by a `setStatus`-free sequence of operations. -/
theorem runOps_errorInvariant (ops : List StoreOp) :
    ∀ s : AppStateShape, errorInvariant s →
      (∀ op ∈ ops, isSetStatus op = false) →
      errorInvariant (runOps s ops) := by
  induction ops with
  | nil => intro s hs _; exact hs
  | cons op rest ih =>
    intro s hs hin
    have hstep : errorInvariant (applyOp s op).1 :=
      applyOp_preserves_errorInvariant s op hs (hin op (by simp))
    have htail : ∀ o ∈ rest, isSetStatus o = false := by
      intro o ho; exact hin o (by simp [ho])
    simpa [runOps, List.foldl] using ih (applyOp s op).1 hstep htail

/-- C1 counterexample: after `setError("boom")` followed by
`setStatus("idle")` — a sequence of store operations from the initial
state — `errorMessage` is non-null while `status` is `idle`, so the
claimed invariant fails on a reachable state. -/
theorem c1_counterexample :
    ¬ errorInvariant (runOps initialState
      [StoreOp.setError (some "boom"), StoreOp.setStatus Status.idle]) := by
  intro h
  exact absurd (h (by decide)) (by decide)

/-- C1 (amended): starting from the initial state, every state reached
by a sequence of `setResult`, `setError` and `reset` operations (no
`setStatus`) satisfies: whenever `errorMessage` is non-null, `status`
equals `error`. -/
theorem c1_amended (ops : List StoreOp)
    (h : ∀ op ∈ ops, isSetStatus op = false) :
    errorInvariant (runOps initialState ops) :=
  runOps_errorInvariant ops initialState (fun hmsg => absurd rfl hmsg) h

/-- C1 witness: a concrete `setStatus`-free sequence reaching a state
that satisfies the invariant. -/
theorem c1_witness :
    errorInvariant (runOps initialState
      [StoreOp.setError (some "x"), StoreOp.reset, StoreOp.setResult none]) :=
  c1_amended [StoreOp.setError (some "x"), StoreOp.reset, StoreOp.setResult none]
    (by decide)

/-- C2: for every prior state and message value, including null,
`setError(msg)` leaves the store with status `error` and
`errorMessage = msg`, and dispatches a `stateChange` notification. -/
theorem c2_setError (s : AppStateShape) (msg : Option String) :
    (applyOp s (StoreOp.setError msg)).1.status = Status.error ∧
    (applyOp s (StoreOp.setError msg)).1.errorMessage = msg ∧
    (applyOp s (StoreOp.setError msg)).2 = true :=
  ⟨rfl, rfl, rfl⟩

/-- C9: `setStatus` with the store's current status is a no-op — the
state is unchanged and no `stateChange` notification is dispatched — so
repeating the current value in a sequence of `setStatus` calls never
fires a second notification for it. -/
theorem c9_setStatus (s : AppStateShape) (next : Status)
    (h : next = s.status) :
    applyOp s (StoreOp.setStatus next) = (s, false) := by
  simp [applyOp, h]

/-- C9 witness: `setStatus("idle")` on the initial (idle) state. -/
theorem c9_witness :
    applyOp initialState (StoreOp.setStatus Status.idle) = (initialState, false) :=
  c9_setStatus initialState Status.idle rfl

/-- C4: on the response with `detected_as "A"`, `confidence 0.873` and
`handedness ["right"]`, `extractDetectionData` returns exactly the
record with letter `"A"`, confidence `0.873`, percentage `"87%"` and
hand `"Right"`. -/
theorem c4_extract :
    extractDetectionData c4Record =
      Except.ok
        { detectedLetter := Json.str "A",
          confidenceNum := some (873 / 1000),
          confidencePct := "87%",
          handDetected := "Right" } := by
  have h1 : extractDetectionData c4Record =
      Except.ok
        { detectedLetter := Json.str "A",
          confidenceNum := some (873 / 1000),
          confidencePct := jsRoundPct (some (873 / 1000)),
          handDetected := "Right" } := rfl
  have hpct : jsRoundPct (some (873 / 1000 : ℚ)) = "87%" := by
    show toString (ratFloor ((873 / 1000 : ℚ) * 100 + 1 / 2)) ++ "%" = "87%"
    rw [ratFloor_eq_floor]
    rw [show ⌊((873 / 1000 : ℚ) * 100 + 1 / 2)⌋ = 87 from by norm_num]
    rfl
  rw [h1, hpct]

/-- C8: for every capture click with no letter selected (no checked
radio, or a radio whose value is falsy), the flow shows the validation
alert and performs no other side effect — no frame capture, no network
request, no state write and no result-display update — whatever the
server would have answered. -/
theorem c8_capture (checkedRadio : Option String) (resp : ServerResponse)
    (h : getSelectedLetter checkedRadio = none) :
    captureClick checkedRadio resp =
      [CaptureEffect.alertShown "Please select a letter before capturing."] := by
  unfold captureClick
  rw [h]

/-- C8 witness: a click with no checked radio, against an arbitrary
concrete response. -/
theorem c8_witness :
    captureClick none { status := 200, rawBody := "", parsedBody := none } =
      [CaptureEffect.alertShown "Please select a letter before capturing."] :=
  c8_capture none { status := 200, rawBody := "", parsedBody := none } rfl

/-- C6: for every success-response object with no `detected_as`, no
`predicted_as`, no `confidence`, no handedness entry, and no truthy
per-side landmark length, `extractDetectionData` returns the default
record (`"-"`, `0`, `"0%"`, `"—"`) and raises no error. -/
theorem c6_defaults (fs : List (String × Json))
    (hd : lookupField fs "detected_as" = none)
    (hp : lookupField fs "predicted_as" = none)
    (hc : lookupField fs "confidence" = none)
    (hh : jsIndexOpt (jsGetOpt (jsGetOpt (some (Json.obj fs)) "metadata") "handedness") 0 = none)
    (hr : jsTruthy (jsGetOpt (jsGetOpt (jsGetOpt (jsGetOpt (some (Json.obj fs)) "metadata") "landmarks") "right") "length") = false)
    (hl : jsTruthy (jsGetOpt (jsGetOpt (jsGetOpt (jsGetOpt (some (Json.obj fs)) "metadata") "landmarks") "left") "length") = false) :
    extractDetectionData (Json.obj fs) =
      Except.ok
        { detectedLetter := Json.str "-",
          confidenceNum := some 0,
          confidencePct := "0%",
          handDetected := "—" } := by
  have hpct0 : jsRoundPct (some (0 : ℚ)) = "0%" := by
    show toString (ratFloor ((0 : ℚ) * 100 + 1 / 2)) ++ "%" = "0%"
    rw [ratFloor_eq_floor]
    rw [show ⌊((0 : ℚ) * 100 + 1 / 2)⌋ = 0 from by norm_num]
    rfl
  show extractBody (Json.obj fs) = _
  unfold extractBody handRawOf
  rw [hh, hr, hl]
  simp only [getField, hd, hp, hc, jsCoalesce, jsCoalesceD, jsToNumber,
    jsCapitalizeHand, jsTruthyJ, Bool.false_eq_true, if_false]
  rw [hpct0]

/-- C6 witness: the empty success object satisfies every default
hypothesis and yields the default record. -/
theorem c6_witness :
    extractDetectionData (Json.obj []) =
      Except.ok
        { detectedLetter := Json.str "-",
          confidenceNum := some 0,
          confidencePct := "0%",
          handDetected := "—" } :=
  c6_defaults [] rfl rfl rfl rfl rfl rfl

/-- A safe resolved handedness entry makes the `handRaw` capitalisation
total: the fallback produces only `"right"`, `"left"` or `null`, and a
string (or nullish) entry never reaches the throwing branch. -/
theorem capitalizeHand_ok_of_safe (record : Json)
    (h : safeHand0 (hand0Of record) = true) :
    ∃ s, jsCapitalizeHand (handRawOf record) = Except.ok s := by
  have hfb : ∀ fb : Json,
      (if jsTruthy (jsGetOpt (jsGetOpt (jsGetOpt (jsGetOpt (some record) "metadata") "landmarks") "right") "length") then Json.str "right"
       else if jsTruthy (jsGetOpt (jsGetOpt (jsGetOpt (jsGetOpt (some record) "metadata") "landmarks") "left") "length") then Json.str "left"
       else Json.null) = fb →
      ∃ s, jsCapitalizeHand fb = Except.ok s := by
    intro fb hfb
    split at hfb
    · exact hfb ▸ ⟨"Right", rfl⟩
    split at hfb
    · exact hfb ▸ ⟨"Left", rfl⟩
    · exact hfb ▸ ⟨"—", rfl⟩
  unfold handRawOf
  unfold hand0Of at h
  cases e : jsIndexOpt (jsGetOpt (jsGetOpt (some record) "metadata") "handedness") 0 with
  | none =>
    simp only [jsCoalesceD]
    exact hfb _ rfl
  | some j =>
    rw [e] at h
    cases j with
    | null =>
      simp only [jsCoalesceD]
      exact hfb _ rfl
    | str s =>
      simp only [jsCoalesceD]
      unfold jsCapitalizeHand
      split
      · exact ⟨jsCapitalize s, rfl⟩
      · exact ⟨"—", rfl⟩
    | bool b => simp [safeHand0] at h
    | num q => simp [safeHand0] at h
    | arr xs => simp [safeHand0] at h
    | obj fs => simp [safeHand0] at h

/-- A resolved handedness entry that is nullish, `"left"` or `"right"`
makes the hand indicator one of the three expected strings. -/
theorem capitalizeHand_cases_of_ok (record : Json)
    (h : okHand0 (hand0Of record) = true) :
    jsCapitalizeHand (handRawOf record) = Except.ok "Left" ∨
    jsCapitalizeHand (handRawOf record) = Except.ok "Right" ∨
    jsCapitalizeHand (handRawOf record) = Except.ok "—" := by
  have hfb : ∀ fb : Json,
      (if jsTruthy (jsGetOpt (jsGetOpt (jsGetOpt (jsGetOpt (some record) "metadata") "landmarks") "right") "length") then Json.str "right"
       else if jsTruthy (jsGetOpt (jsGetOpt (jsGetOpt (jsGetOpt (some record) "metadata") "landmarks") "left") "length") then Json.str "left"
       else Json.null) = fb →
      jsCapitalizeHand fb = Except.ok "Left" ∨
      jsCapitalizeHand fb = Except.ok "Right" ∨
      jsCapitalizeHand fb = Except.ok "—" := by
    intro fb hfb
    split at hfb
    · exact Or.inr (Or.inl (hfb ▸ rfl))
    split at hfb
    · exact Or.inl (hfb ▸ rfl)
    · exact Or.inr (Or.inr (hfb ▸ rfl))
  unfold handRawOf
  unfold hand0Of at h
  cases e : jsIndexOpt (jsGetOpt (jsGetOpt (some record) "metadata") "handedness") 0 with
  | none =>
    simp only [jsCoalesceD]
    exact hfb _ rfl
  | some j =>
    rw [e] at h
    cases j with
    | null =>
      simp only [jsCoalesceD]
      exact hfb _ rfl
    | str s =>
      simp only [jsCoalesceD]
      have hs : s = "left" ∨ s = "right" := by
        simpa [okHand0] using h
      rcases hs with rfl | rfl
      · exact Or.inl rfl
      · exact Or.inr (Or.inl rfl)
    | bool b => simp [okHand0] at h
    | num q => simp [okHand0] at h
    | arr xs => simp [okHand0] at h
    | obj fs => simp [okHand0] at h

/-- A `confidence` field that is absent, null, or a number in the unit
interval yields a `confidenceNum` in the unit interval. -/
theorem confidence_cases (c : Option Json)
    (h : confValueOkB c = true) :
    ∃ q : ℚ, jsToNumber (jsCoalesceD c (Json.num 0)) = some q ∧ 0 ≤ q ∧ q ≤ 1 := by
  cases c with
  | none => exact ⟨0, rfl, by norm_num⟩
  | some j =>
    cases j with
    | null => exact ⟨0, rfl, by norm_num⟩
    | num q =>
      refine ⟨q, rfl, ?_⟩
      simpa [confValueOkB, decide_eq_true_eq] using h
    | bool b => simp [confValueOkB] at h
    | str s => simp [confValueOkB] at h
    | arr xs => simp [confValueOkB] at h
    | obj fs => simp [confValueOkB] at h

/-- C3 counterexample: the success record with `confidence: 2` is
processed without error, but the constructed record has
`confidenceNum = 2`, outside the closed unit interval, so it is not
well-formed in the claimed sense. -/
theorem c3_counterexample :
    Except.map detectionWellFormedB (extractDetectionData c3Record) = Except.ok false := rfl

/-- C3 (amended): for every success-response object whose `confidence`
field, when present and non-null, is a number in the unit interval, and
whose resolved `metadata.handedness[0]` entry, when present and
non-null, is `"left"` or `"right"`, the constructed record has
`confidenceNum` in the closed unit interval and `handDetected` equal to
one of `"Left"`, `"Right"`, `"—"`. -/
theorem c3_amended (fs : List (String × Json))
    (hc : confValueOkB (lookupField fs "confidence") = true)
    (hh : okHand0 (hand0Of (Json.obj fs)) = true) :
    Except.map detectionWellFormedB (extractDetectionData (Json.obj fs)) = Except.ok true := by
  obtain ⟨q, hq, hq0, hq1⟩ := confidence_cases (lookupField fs "confidence") hc
  have hq' : jsToNumber (jsCoalesceD (getField (Json.obj fs) "confidence") (Json.num 0)) = some q := hq
  rcases capitalizeHand_cases_of_ok (Json.obj fs) hh with h3 | h3 | h3
  all_goals
    show Except.map detectionWellFormedB (extractBody (Json.obj fs)) = Except.ok true
    unfold extractBody
    rw [h3, hq']
    simp [Except.map, detectionWellFormedB, decide_eq_true_eq, hq0, hq1]

/-- C3 witness: a record with an in-range confidence and no handedness
information. -/
theorem c3_witness :
    Except.map detectionWellFormedB
      (extractDetectionData (Json.obj [("confidence", Json.num 1)])) = Except.ok true :=
  c3_amended [("confidence", Json.num 1)] rfl rfl

/-- C10 counterexample: a record whose handedness entry is the number 5
is truthy but has no `charAt` method, so `extractDetectionData` throws a
`TypeError` instead of returning a record. -/
theorem c10_counterexample :
    (extractDetectionData c10Record).toOption.isSome = false := rfl

/-- C10 (amended): `extractDetectionData` returns a record without
throwing on every JSON object whose resolved `metadata.handedness[0]`
entry, when present and non-null, is a string. -/
theorem c10_amended (fs : List (String × Json))
    (h : safeHand0 (hand0Of (Json.obj fs)) = true) :
    (extractDetectionData (Json.obj fs)).toOption.isSome = true := by
  obtain ⟨s, hs⟩ := capitalizeHand_ok_of_safe (Json.obj fs) h
  show (extractBody (Json.obj fs)).toOption.isSome = true
  unfold extractBody
  rw [hs]
  rfl

/-- C10 witness: the empty success object extracts without throwing. -/
theorem c10_witness :
    (extractDetectionData (Json.obj [])).toOption.isSome = true :=
  c10_amended [] rfl

/-- Optional chaining on a value known not to be null is plain property
access. -/
theorem jsGetOpt_some (j : Json) (k : String) (h : j ≠ Json.null) :
    jsGetOpt (some j) k = getField j k := by
  cases j with
  | null => exact absurd rfl h
  | bool b => rfl
  | num q => rfl
  | str s => rfl
  | arr xs => rfl
  | obj fs => rfl

/-- On a non-null record, `extractDetectionData` is its body. -/
theorem extract_ne_null (record : Json) (h : record ≠ Json.null) :
    extractDetectionData record = extractBody record := by
  cases record with
  | null => exact absurd rfl h
  | bool b => rfl
  | num q => rfl
  | str s => rfl
  | arr xs => rfl
  | obj fs => rfl

/-- C5 counterexample: with non-empty `landmarks.left`, non-empty
`landmarks.right` and no handedness entry, the code checks the right
side first and derives `"Right"`, not `"Left"`. -/
theorem c5_counterexample :
    (extractDetectionData c5Record).toOption.map ExtractedDetection.handDetected = some "Right" ∧
    (extractDetectionData c5Record).toOption.map ExtractedDetection.handDetected ≠ some "Left" := by
  constructor
  · rfl
  · intro h
    have h2 : (some "Right" : Option String) = some "Left" := by
      rw [show (extractDetectionData c5Record).toOption.map ExtractedDetection.handDetected
            = some "Right" from rfl] at h
      exact h
    exact absurd (Option.some.inj h2) (by decide)

/-- C5 (amended): for every success response whose metadata has no
handedness entry, a non-empty `landmarks.left` list, and a
`landmarks.right` whose `length` is not truthy (absent, null, empty or
length-less), the derived `handDetected` is `"Left"`. -/
theorem c5_amended (record : Json) (ms : List (String × Json)) (lm : Json) (xs : List Json)
    (hmeta : getField record "metadata" = some (Json.obj ms))
    (hhand : lookupField ms "handedness" = none)
    (hlm : lookupField ms "landmarks" = some lm)
    (hleft : getField lm "left" = some (Json.arr xs))
    (hxs : xs ≠ [])
    (hright : jsTruthy (jsGetOpt (jsGetOpt (some lm) "right") "length") = false) :
    (extractDetectionData record).toOption.map ExtractedDetection.handDetected = some "Left" := by
  have hne : record ≠ Json.null := by
    intro h
    rw [h] at hmeta
    simp [getField] at hmeta
  have hlmne : lm ≠ Json.null := by
    intro h
    rw [h] at hleft
    simp [getField] at hleft
  have h1 : jsGetOpt (some record) "metadata" = some (Json.obj ms) := by
    rw [jsGetOpt_some record "metadata" hne, hmeta]
  have hhand0 : jsIndexOpt (jsGetOpt (jsGetOpt (some record) "metadata") "handedness") 0 = none := by
    rw [h1]
    simp only [jsGetOpt, getField]
    rw [hhand]
    rfl
  have hlm1 : jsGetOpt (jsGetOpt (some record) "metadata") "landmarks" = some lm := by
    rw [h1]
    simp only [jsGetOpt, getField]
    exact hlm
  have hleftlen : jsTruthy (jsGetOpt (jsGetOpt (some lm) "left") "length") = true := by
    rw [jsGetOpt_some lm "left" hlmne, hleft]
    simp only [jsGetOpt, getField, if_pos]
    simp [jsTruthy, jsTruthyJ, hxs]
  have hhr : handRawOf record = Json.str "left" := by
    unfold handRawOf
    rw [hhand0, hlm1, hright, hleftlen]
    rfl
  rw [extract_ne_null record hne]
  unfold extractBody
  rw [hhr]
  rfl

/-- C5 witness: left landmarks present and non-empty, right absent. -/
theorem c5_witness :
    (extractDetectionData (Json.obj
      [("metadata", Json.obj
        [("landmarks", Json.obj
          [("left", Json.arr [Json.num 1])])])])).toOption.map ExtractedDetection.handDetected
      = some "Left" :=
  c5_amended
    (Json.obj [("metadata", Json.obj [("landmarks", Json.obj [("left", Json.arr [Json.num 1])])])])
    [("landmarks", Json.obj [("left", Json.arr [Json.num 1])])]
    (Json.obj [("left", Json.arr [Json.num 1])])
    [Json.num 1]
    rfl rfl rfl rfl (List.cons_ne_nil _ _) rfl


/-- C7: evaluation of the error path at the failing input and its
neighbours.  For the 500 response whose body `Internal Server Error` is
not valid JSON, and for the 502 response whose body is the JSON text
`null`, the upload rejects with the body-consumption `TypeError` — not
with a descriptive error — so the thrown message contains neither the
HTTP status nor the raw response text.  The descriptive error does
survive for a JSON object body: with a `detail` field it carries the
status and the detail, and without one it carries the status and the
full serialized payload. -/
theorem c7_failing_input :
    handleServerError
      { status := 500, rawBody := "Internal Server Error", parsedBody := none }
      = ThrownError.bodyConsumedTypeError ∧
    handleServerError
      { status := 502, rawBody := "null", parsedBody := some Json.null }
      = ThrownError.bodyConsumedTypeError ∧
    handleServerError
      { status := 422,
        rawBody := "\x7b\"detail\":\"bad image\"\x7d",
        parsedBody := some (Json.obj [("detail", Json.str "bad image")]) }
      = ThrownError.descriptive "HTTP 422: bad image" ∧
    handleServerError
      { status := 422,
        rawBody := "\x7b\"code\":\"imgfmt\"\x7d",
        parsedBody := some (Json.obj [("code", Json.str "imgfmt")]) }
      = ThrownError.descriptive "HTTP 422: \x7b\"code\":\"imgfmt\"\x7d" := by
  exact ⟨rfl, rfl, rfl, rfl⟩
